import Mathlib

/-!
# Verification of the MovieAgenticAI query-parsing and tool layer

This file gives a shallow embedding, in Lean 4, of the pure business logic of
the MovieAgenticAI repository: the free-text query parsers
(`parse_year_range`, `parse_genre`, `clean_mashed_names` in
`services/utils.py`), the description builder (`make_description` in
`services/ingest.py`), the ingestion control flow (`ingest_movies` in
`services/ingest.py`), and the four agent tools (`search_movies`,
`recommend_similar_movies`, `get_movie_statistics`, `generate_movie_quiz` in
`services/agents.py`).

Modelling conventions:
* Python strings are modelled as `List Char`; only ASCII behaviour of
  `str.lower`, `\s`, `\d`, `\w` is modelled (every string the repository
  manipulates in the verified paths is ASCII, apart from fixed emoji
  literals, which are carried verbatim).
* The regexes used by the source are compiled by hand to executable
  matchers with Python `re.search` semantics (leftmost match, greedy
  quantifiers with backtracking, `\b` word boundaries).
* `rapidfuzz.fuzz.ratio a b` is `100 * (1 - indel(a,b) / (|a|+|b|))`, and
  `indel(a,b) = |a|+|b| - 2*lcs(a,b)`; the strict comparison `ratio > 80`
  is therefore modelled exactly as `200 * lcs a b > 80 * (|a| + |b|)`.
* The FAISS vector store is opaque to the tool code: it is modelled as an
  abstract search function `query ↦ k ↦ documents`.
* pandas floats (`rating`, `year` columns) are modelled as exact rationals;
  `Series.mean` of an empty series is `NaN`, modelled by the dedicated
  empty branch of `avgMessage` below.
* `random.choice([True, False])` and `DataFrame.sample(1)` draw from the
  process-wide random generator; the generator is modelled by an explicit
  pair (a `Bool` for the coin flip, a `Nat` index reduced mod the pool
  size for the sample).
-/

/-! ## Character classes (ASCII fragments of Python's `str` / `re` classes) -/

/-- ASCII decimal digit, Python regex `\d` (ASCII fragment). -/
def isDigitCh (c : Char) : Bool := '0' ≤ c && c ≤ '9'

/-- ASCII word character, Python regex `\w` / `\b` word class (ASCII fragment). -/
def isWordCh (c : Char) : Bool :=
  isDigitCh c || ('a' ≤ c && c ≤ 'z') || ('A' ≤ c && c ≤ 'Z') || c = '_'

/-- Python regex `\s` (ASCII fragment: space, tab, newline, CR, VT, FF). -/
def isPySpace (c : Char) : Bool :=
  c = ' ' || c = '\t' || c = '\n' || c = '\r' || c = '\x0b' || c = '\x0c'

/-- `str.lower` (ASCII fragment). -/
def toLowerCh (c : Char) : Char :=
  if 'A' ≤ c && c ≤ 'Z' then Char.ofNat (c.toNat + 32) else c

/-- `str.lower` on a whole string. -/
def toLowerStr (s : List Char) : List Char := s.map toLowerCh

/-- Numeric value of a digit string, as produced by Python `int` on it. -/
def digitsToNat (l : List Char) : Nat :=
  l.foldl (fun n c => 10 * n + (c.toNat - 48)) 0

/-- Python `sub in s` substring containment. -/
def isSubstr (pat : List Char) : List Char → Bool
  | [] => pat.isEmpty
  | c :: t => pat.isPrefixOf (c :: t) || isSubstr pat t

/-- Python `s.split()`: split on runs of whitespace, no empty tokens. -/
def splitWs : List Char → List (List Char)
  | [] => []
  | c :: t =>
    if isPySpace c then splitWs t
    else match splitWs t with
      | [] => [[c]]
      | w :: ws =>
        match t with
        | [] => [[c]]
        | c' :: _ => if isPySpace c' then [c] :: w :: ws else (c :: w) :: ws

/-- Python `s.split(sep)` for a one-character separator. -/
def splitOnChar (sep : Char) : List Char → List (List Char)
  | [] => [[]]
  | c :: t =>
    if c = sep then [] :: splitOnChar sep t
    else match splitOnChar sep t with
      | [] => [[c]]
      | h :: r => (c :: h) :: r

/-! ## `parse_year_range` (services/utils.py, lines 4–21)

Python source:
```
decade_match = re.search(r'\b(\d\x7b2,4\x7d)\s?\'?s\b', query_lower)
if decade_match:
    digits = decade_match.group(1)
    start_year = int("19" + digits) if len(digits) == 2 else int(digits)
    return (start_year, start_year + 9)
year_match = re.search(r'\b(19\d\x7b2\x7d|20\d\x7b2\x7d)\b', query_lower)
if year_match:
    specific_year = int(year_match.group(1))
    return (specific_year, specific_year)
return None
```
-/

/-- Take exactly `k` leading digits, returning them and the rest. -/
def takeExactDigits : Nat → List Char → Option (List Char × List Char)
  | 0, l => some ([], l)
  | _ + 1, [] => none
  | k + 1, c :: t =>
    if isDigitCh c then
      match takeExactDigits k t with
      | some (d, rest) => some (c :: d, rest)
      | none => none
    else none

/-- Match `s\b` at the head of the list. -/
def matchSB : List Char → Bool
  | 's' :: rest =>
    match rest with
    | [] => true
    | c :: _ => !(isWordCh c)
  | _ => false

/-- Match `\'?s\b` at the head of the list (optional apostrophe). -/
def matchAposSB (l : List Char) : Bool :=
  (match l with
   | '\'' :: rest => matchSB rest
   | _ => false) || matchSB l

/-- Match `\s?\'?s\b` at the head of the list (optional whitespace). -/
def matchSpAposSB (l : List Char) : Bool :=
  (match l with
   | c :: rest => isPySpace c && matchAposSB rest
   | [] => false) || matchAposSB l

/-- Try `(\d\x7bk\x7d)\s?\'?s\b` at the head; returns the digit group. -/
def tryDecadeK (k : Nat) (l : List Char) : Option (List Char) :=
  match takeExactDigits k l with
  | some (d, rest) => if matchSpAposSB rest then some d else none
  | none => none

/-- Try the decade pattern `(\d\x7b2,4\x7d)\s?\'?s\b` at the head of the list,
with the greedy quantifier's backtracking order (4, then 3, then 2 digits). -/
def tryDecadeAt (l : List Char) : Option (List Char) :=
  match tryDecadeK 4 l with
  | some d => some d
  | none =>
    match tryDecadeK 3 l with
    | some d => some d
    | none => tryDecadeK 2 l

/-- `re.search` scan for the decade pattern with a leading `\b`: `prevW` says
whether the previous character was a word character. -/
def decadeSearchAux : Bool → List Char → Option (List Char)
  | _, [] => none
  | prevW, c :: rest =>
    if !prevW then
      match tryDecadeAt (c :: rest) with
      | some d => some d
      | none => decadeSearchAux (isWordCh c) rest
    else decadeSearchAux (isWordCh c) rest

/-- Try `(19\d\x7b2\x7d|20\d\x7b2\x7d)\b` at the head of the list. -/
def tryYearAt : List Char → Option Nat
  | a :: b :: c :: d :: rest =>
    if ((a = '1' && b = '9') || (a = '2' && b = '0')) && isDigitCh c && isDigitCh d
        && (match rest with | [] => true | e :: _ => !(isWordCh e)) then
      some (digitsToNat [a, b, c, d])
    else none
  | _ => none

/-- `re.search` scan for the explicit-year pattern with a leading `\b`. -/
def yearSearchAux : Bool → List Char → Option Nat
  | _, [] => none
  | prevW, c :: rest =>
    if !prevW then
      match tryYearAt (c :: rest) with
      | some y => some y
      | none => yearSearchAux (isWordCh c) rest
    else yearSearchAux (isWordCh c) rest

/-- `parse_year_range` from `services/utils.py`. -/
def parse_year_range (query_lower : List Char) : Option (Nat × Nat) :=
  match decadeSearchAux false query_lower with
  | some digits =>
    let start_year := if digits.length = 2 then 1900 + digitsToNat digits else digitsToNat digits
    some (start_year, start_year + 9)
  | none =>
    match yearSearchAux false query_lower with
    | some y => some (y, y)
    | none => none


/-! ## `parse_genre` (services/utils.py, lines 23–43)

Python source:
```
genres = ['action', 'adventure', ..., 'sci-fi', 'reality-tv']
if 'scifi' in query_lower: return 'sci-fi'
for genre in genres:
    if f" \x7bgenre\x7d " in f" \x7bquery_lower\x7d ": return genre
for word in query_lower.split():
    for genre in genres:
        if fuzz.ratio(genre, word) > 80:
            return genre
return None
```
-/

/-- One row update of the longest-common-subsequence dynamic program:
`c` is the new character of the first string, `b` the second string, the two
`Nat` accumulators are the diagonal and left neighbours of the cell being
filled. -/
def lcsRowAux (c : Char) : List Char → List Nat → Nat → Nat → List Nat
  | [], _, _, _ => []
  | _ :: _, [], _, _ => []
  | b :: bs, p :: ps, diag, left =>
    let v := if c = b then diag + 1 else Nat.max left p
    v :: lcsRowAux c bs ps p v

/-- Next full row of the LCS dynamic program over `b`, from row `prev`. -/
def lcsNextRow (c : Char) (b : List Char) (prev : List Nat) : List Nat :=
  match prev with
  | [] => []
  | p0 :: ps => 0 :: lcsRowAux c b ps p0 0

/-- Length of the longest common subsequence of two character lists. -/
def lcs (a b : List Char) : Nat :=
  (a.foldl (fun row c => lcsNextRow c b row) (List.replicate (b.length + 1) 0)).getLastD 0

/-- `rapidfuzz.fuzz.ratio a b > 80`.  `fuzz.ratio` is
`100 * (1 - indel(a,b) / (|a|+|b|))` with `indel(a,b) = |a|+|b| - 2*lcs(a,b)`,
i.e. `200 * lcs / (|a|+|b|)`; the strict comparison is taken with exact
rational arithmetic (the `0/0 = 100` convention for two empty strings never
arises: genres are nonempty). -/
def fuzzRatioGt80 (a b : List Char) : Bool :=
  decide (200 * lcs a b > 80 * (a.length + b.length))

/-- The fixed genre vocabulary of `parse_genre`. -/
def genres : List (List Char) :=
  ["action".data, "adventure".data, "animation".data, "biography".data,
   "comedy".data, "crime".data, "documentary".data, "drama".data,
   "fantasy".data, "family".data, "history".data, "horror".data,
   "musical".data, "mystery".data, "romance".data, "sci-fi".data,
   "reality-tv".data]

/-- Stage 2 of `parse_genre`: first genre matching as a space-delimited whole
word (the source checks `" \x7bgenre\x7d " in " \x7bquery\x7d "`). -/
def exactGenreMatch (query_lower : List Char) : Option (List Char) :=
  genres.find? fun g => isSubstr (' ' :: g ++ [' ']) (' ' :: query_lower ++ [' '])

/-- Stage 3 of `parse_genre`: token-by-token fuzzy scan — for each whitespace
token of the query in order, for each genre in vocabulary order, return the
first pair with similarity ratio above 80. -/
def fuzzyGenreMatch (query_lower : List Char) : Option (List Char) :=
  (splitWs query_lower).findSome? fun w => genres.find? fun g => fuzzRatioGt80 g w

/-- `parse_genre` from `services/utils.py`. -/
def parse_genre (query_lower : List Char) : Option (List Char) :=
  if isSubstr "scifi".data query_lower then some "sci-fi".data
  else
    match exactGenreMatch query_lower with
    | some g => some g
    | none => fuzzyGenreMatch query_lower


/-! ## `clean_mashed_names` (services/utils.py, lines 45–47)

`re.sub(r'(?<=[a-z])(?=[A-Z])', ', ', str(text))`: insert `", "` at every
boundary between an ASCII lowercase and an ASCII uppercase letter. -/

/-- ASCII lowercase letter (Python regex class `[a-z]`). -/
def isLowerAlpha (c : Char) : Bool := 'a' ≤ c && c ≤ 'z'

/-- ASCII uppercase letter (Python regex class `[A-Z]`). -/
def isUpperAlpha (c : Char) : Bool := 'A' ≤ c && c ≤ 'Z'

/-- `clean_mashed_names` from `services/utils.py`. -/
def clean_mashed_names : List Char → List Char
  | [] => []
  | [c] => [c]
  | a :: b :: t =>
    if isLowerAlpha a && isUpperAlpha b then a :: ',' :: ' ' :: clean_mashed_names (b :: t)
    else a :: clean_mashed_names (b :: t)


/-! ## Data model of the tool layer (services/agents.py)

A retrieved chunk is a LangChain `Document`: a `page_content` string plus a
`title` metadata entry (attached at ingestion, services/ingest.py lines
96–99).  The FAISS store only ever appears through
`vectorstore.similarity_search(query, k)`, so it is modelled as an abstract
search function.  A row of the cached table carries exactly the columns the
tools read. -/

structure Doc where
  content : List Char
  title : List Char
deriving DecidableEq, Inhabited

structure Index where
  search : List Char → Nat → List Doc

structure Movie where
  title : List Char
  year : ℚ
  genre : List Char
  rating : ℚ
  director : List Char
  cast : List Char
deriving DecidableEq, Inhabited

/-! ## `search_movies` (services/agents.py, lines 24–74) -/

/-- Try the marker pattern `Year: (\d\x7b4\x7d)` at the head of the list. -/
def tryMarkerAt : List Char → Option Nat
  | 'Y' :: 'e' :: 'a' :: 'r' :: ':' :: ' ' :: a :: b :: c :: d :: _ =>
    if isDigitCh a && isDigitCh b && isDigitCh c && isDigitCh d then
      some (digitsToNat [a, b, c, d])
    else none
  | _ => none

/-- `re.search(r'Year: (\d\x7b4\x7d)', content)`: leftmost occurrence. -/
def markerSearch : List Char → Option Nat
  | [] => none
  | c :: t =>
    match tryMarkerAt (c :: t) with
    | some y => some y
    | none => markerSearch t

/-- The year post-filter of `search_movies` (lines 48–56): with no parsed
range every chunk passes; with a parsed range, a chunk with no `Year: NNNN`
marker passes, and a chunk with a marker passes iff the marker year lies in
the inclusive range. -/
def yearPass (year_range : Option (Nat × Nat)) (content : List Char) : Bool :=
  match year_range with
  | none => true
  | some (lo, hi) =>
    match markerSearch content with
    | none => true
    | some yr => decide (lo ≤ yr) && decide (yr ≤ hi)

/-- The genre post-filter of `search_movies` (line 59): case-insensitive
substring of the chunk text. -/
def genrePass (genre_filter : Option (List Char)) (content : List Char) : Bool :=
  match genre_filter with
  | none => true
  | some g => isSubstr g (toLowerStr content)

/-- Both post-filters of `search_movies`. -/
def docPass (year_range : Option (Nat × Nat)) (genre_filter : Option (List Char))
    (d : Doc) : Bool :=
  yearPass year_range d.content && genrePass genre_filter d.content

/-- The candidate loop shared by `search_movies` (lines 43–64) and
`recommend_similar_movies` (lines 93–103): walk the candidates in order,
skip a candidate whose title was already accepted, skip a candidate failing
`pass`, and stop once `k` candidates have been accepted.  (The source breaks
out of the loop right after the `k`-th append; returning `[]` on the next
step with `k = 0` yields the same list.) -/
def keepLoop (pass : Doc → Bool) : Nat → List (List Char) → List Doc → List Doc
  | _, _, [] => []
  | k, seen, d :: ds =>
    if k = 0 then []
    else if d.title ∈ seen then keepLoop pass k seen ds
    else if pass d then d :: keepLoop pass (k - 1) (d.title :: seen) ds
    else keepLoop pass k seen ds

/-- First-occurrence deduplication by title, seeding the set of already-seen
titles with `seen`.  Used to characterise `keepLoop`. -/
def dedupTitles : List (List Char) → List Doc → List Doc
  | _, [] => []
  | seen, d :: ds =>
    if d.title ∈ seen then dedupTitles seen ds
    else d :: dedupTitles (d.title :: seen) ds

/-- Python `line.split(': ')` (split on the two-character separator,
non-overlapping, left to right). -/
def splitColonSp : List Char → List (List Char)
  | [] => [[]]
  | ':' :: ' ' :: t => [] :: splitColonSp t
  | c :: t =>
    match splitColonSp t with
    | [] => [[c]]
    | h :: r => (c :: h) :: r

/-- Python `' | '.join(parts)`. -/
def joinPipe : List (List Char) → List Char
  | [] => []
  | [x] => x
  | x :: y :: t => x ++ " | ".data ++ joinPipe (y :: t)

/-- The per-document summary line used by both search output formats:
`' | '.join([line.split(': ')[1] for line in content.split('\n')[:k] if ': ' in line])`. -/
def docInfo (k : Nat) (d : Doc) : List Char :=
  joinPipe (((splitOnChar '\n' d.content).take k).filterMap fun line =>
    if isSubstr ": ".data line then some ((splitColonSp line).getD 1 []) else none)

/-- Python `str` of a natural number. -/
def natStrAux (n : Nat) : List Char := (Nat.repr n).data

/-- The numbered output lines of `search_movies` (lines 69–72). -/
def numberLines : Nat → List Doc → List Char
  | _, [] => []
  | i, d :: ds => natStrAux i ++ ". ".data ++ docInfo 4 d ++ "\n".data ++ numberLines (i + 1) ds

/-- "no movies found" message of `search_movies` (line 66). -/
def noMoviesMsg : List Char := "No movies found matching those specific criteria.".data

/-- `search_movies` from `services/agents.py`.  The vector store handle is
`Option Index` (`None` while the store is initializing). -/
def search_movies (query : List Char) (vectorstore : Option Index) : List Char :=
  match vectorstore with
  | none => "Error: Database is initializing, please try again.".data
  | some idx =>
    let query_lower := toLowerStr query
    let year_range := parse_year_range query_lower
    let genre_filter := parse_genre query_lower
    let results := idx.search query 30
    let filtered := keepLoop (docPass year_range genre_filter) 5 [] results
    if filtered.isEmpty then noMoviesMsg
    else "Here is what I found:\n\n".data ++ numberLines 1 filtered

/-! ## `recommend_similar_movies` (services/agents.py, lines 77–105) -/

/-- `recommend_similar_movies` from `services/agents.py`. -/
def recommend_similar_movies (movie_title : List Char) (vectorstore : Option Index) :
    List Char :=
  match vectorstore with
  | none => "Error: Database not loaded.".data
  | some idx =>
    match idx.search ("Title: ".data ++ movie_title) 1 with
    | [] => "I couldn't find '".data ++ movie_title ++ "'.".data
    | ref :: _ =>
      let similar := idx.search ref.content 10
      let recs := keepLoop (fun d => decide (d.title ≠ ref.title)) 5 [] similar
      "Movies similar to '".data ++ ref.title ++ "':\n\n".data ++
        (recs.map fun d => "- ".data ++ docInfo 3 d ++ "\n".data).flatten

/-! ## `get_movie_statistics` (services/agents.py, lines 108–135) -/

/-- Python `str` of an integer. -/
def intStr (i : Int) : List Char :=
  if i < 0 then '-' :: natStrAux i.natAbs else natStrAux i.natAbs

/-- Python `int()` truncation of a rational (toward zero). -/
def pyInt (q : ℚ) : Int := if q < 0 then -(Rat.floor (-q)) else Rat.floor q

/-- Render `cents/100` with exactly two decimals. -/
def fmt2Nat (cents : Nat) : List Char :=
  natStrAux (cents / 100) ++ '.' ::
    (if cents % 100 < 10 then '0' :: natStrAux (cents % 100) else natStrAux (cents % 100))

/-- Python `f"\x7bq:.2f\x7d"` on a finite value, idealised to exact-rational
round-half-even at two decimals (CPython formats the nearest binary double;
for the dataset's one-decimal ratings the two agree). -/
def fmt2 (q : ℚ) : List Char :=
  let s := q * 100
  let f : Int := Rat.floor s
  let cents : Int :=
    if (1 : ℚ) / 2 < s - f then f + 1
    else if s - f < (1 : ℚ) / 2 then f
    else if f % 2 = 0 then f else f + 1
  if cents < 0 then '-' :: fmt2Nat cents.natAbs else fmt2Nat cents.natAbs

/-- Decimal digits of a rational in `[0, 1)`, most significant first, up to
`fuel` digits (used to render a float's `repr`). -/
def fracDigits : Nat → ℚ → List Char
  | 0, _ => []
  | fuel + 1, q =>
    if q = 0 then []
    else
      let q10 := q * 10
      let d : Int := Rat.floor q10
      Char.ofNat (48 + d.toNat) :: fracDigits fuel (q10 - d)

/-- Python `str` of a float with a finite decimal expansion (the dataset's
ratings), e.g. `8.8`; idealised from the binary-double `repr`. -/
def fmtRating (q : ℚ) : List Char :=
  let sgn := if q < 0 then "-".data else []
  let a := |q|
  let ip := Rat.floor a
  let fr := a - ip
  sgn ++ intStr ip ++ '.' :: (if fr = 0 then "0".data else fracDigits 20 fr)

/-- `Series.mean` of the ratings followed by the f-string of line 126.
pandas returns `NaN` on an empty series and `f"\x7bnan:.2f\x7d"` renders as
`nan`, so the empty case produces the literal `nan` text. -/
def avgMessage (ratings : List ℚ) : List Char :=
  match ratings with
  | [] => "Average rating: nan/10 (based on 0 movies)".data
  | r :: rest =>
    "Average rating: ".data ++ fmt2 ((r :: rest).sum / (r :: rest).length) ++
      "/10 (based on ".data ++ natStrAux (r :: rest).length ++ " movies)".data

/-- Stable insertion (descending by rating) used to model
`DataFrame.nlargest(5, 'rating')` (which keeps first among ties). -/
def insertDesc (m : Movie) : List Movie → List Movie
  | [] => [m]
  | x :: xs => if x.rating < m.rating then m :: x :: xs else x :: insertDesc m xs

/-- Stable descending sort by rating. -/
def sortByRatingDesc (l : List Movie) : List Movie := l.foldr insertDesc []

/-- The "highest"/"best"/"top" branch of `get_movie_statistics`
(lines 128–133). -/
def topMessage (subset : List Movie) : List Char :=
  let top := (sortByRatingDesc subset).take 5
  "Highest rated movies:\n".data ++
    (top.map fun m => "- ".data ++ m.title ++ " (".data ++ intStr (pyInt m.year) ++
      "): ".data ++ fmtRating m.rating ++ "\n".data).flatten

/-- `get_movie_statistics` from `services/agents.py`.  The cached table is
`Option (List Movie)` (`None` when the pickle was absent at import time). -/
def get_movie_statistics (query : List Char) (df : Option (List Movie)) : List Char :=
  match df with
  | none => "Error: Data cache not loaded.".data
  | some rows =>
    let query_lower := toLowerStr query
    let year_range := parse_year_range query_lower
    let genre_filter := parse_genre query_lower
    let s1 := match genre_filter with
      | none => rows
      | some g => rows.filter fun m => isSubstr g (toLowerStr m.genre)
    let subset := match year_range with
      | none => s1
      | some (lo, hi) =>
        s1.filter fun m => decide ((lo : ℚ) ≤ m.year) && decide (m.year ≤ (hi : ℚ))
    if isSubstr "average".data query_lower then
      avgMessage (subset.map (·.rating))
    else if isSubstr "highest".data query_lower || isSubstr "best".data query_lower ||
        isSubstr "top".data query_lower then
      topMessage subset
    else
      "Found ".data ++ natStrAux subset.length ++ " movies matching your criteria.".data

/-! ## `generate_movie_quiz` (services/agents.py, lines 138–158)

`random.choice([True, False])` is modelled by an explicit `Bool` drawn from
the process RNG, and `pool.sample(1).iloc[0]` by an explicit index reduced
modulo the pool size. -/

/-- The quiz sampling pool: rating ≥ 7.0 and year ≥ 2000 (line 144). -/
def quizPool (rows : List Movie) : List Movie :=
  rows.filter fun m => decide ((7 : ℚ) ≤ m.rating) && decide ((2000 : ℚ) ≤ m.year)

/-- The machine-readable answer marker appended to both quiz variants. -/
def answerKeyMarker (answer : List Char) : List Char :=
  "\n\n||INTERNAL_ANSWER_KEY: ".data ++ answer ++ "||".data

/-- The question text of the director variant (line 151). -/
def dirQuestion (m : Movie) : List Char :=
  "🎬 **Director Challenge**\n❓ Who directed **'".data ++ m.title ++ "'**?".data

/-- The question text of the actor variant (line 155). -/
def actQuestion (m : Movie) : List Char :=
  "🎬 **Actor Challenge**\n❓ Who starred in **'".data ++ m.title ++ "'**?".data

/-- The full director-variant response (lines 150–152). -/
def dirResponse (m : Movie) : List Char := dirQuestion m ++ answerKeyMarker m.director

/-- The full actor-variant response (lines 154–156): the answer is
`clean_mashed_names(cast).split(',')[0]`. -/
def actResponse (m : Movie) : List Char :=
  actQuestion m ++ answerKeyMarker ((splitOnChar ',' (clean_mashed_names m.cast)).headD [])

/-- `generate_movie_quiz` from `services/agents.py`.  (The tool ignores its
query string; only the table and the RNG state feed the answer.) -/
def generate_movie_quiz (df : Option (List Movie)) (rngPick : Bool) (rngIdx : Nat) :
    List Char :=
  match df with
  | none => "Error: Data not loaded.".data
  | some rows =>
    let pool := quizPool rows
    if pool.length < 5 then "Not enough data for a quiz.".data
    else
      let movie := pool.getD (rngIdx % pool.length) default
      if rngPick then dirResponse movie else actResponse movie

/-! ## Process-wide tool state (services/agents.py, lines 9–19)

The module holds a cached table `df`, a vector store handle, and (through
`random` / `DataFrame.sample`) the process RNG; each tool is a function of
its free-text argument and this state. -/

structure AgentState where
  table : Option (List Movie)
  index : Option Index
  rngPick : Bool
  rngIdx : Nat

def searchTool (query : List Char) (s : AgentState) : List Char :=
  search_movies query s.index

def recommendTool (movie_title : List Char) (s : AgentState) : List Char :=
  recommend_similar_movies movie_title s.index

def statsTool (query : List Char) (s : AgentState) : List Char :=
  get_movie_statistics query s.table

def quizTool (_query : List Char) (s : AgentState) : List Char :=
  generate_movie_quiz s.table s.rngPick s.rngIdx

/-! ## `make_description` (services/ingest.py, lines 13–35)

A cleaned table row as `make_description` reads it.  Fields that are only
interpolated into the description are carried in their rendered string form;
`year` and `duration` go through `int(...)` guarded by `try/except`, so they
are `Option Int` (`none` is the `except` path, rendered `Unknown`);
`metascore` is `none` when `pd.notna` fails. -/

structure Row where
  title : List Char
  year : Option Int
  genre : List Char
  rating : List Char
  director : List Char
  cast : List Char
  duration : Option Int
  certificates : List Char
  metascore : Option (List Char)
deriving DecidableEq, Inhabited

/-- The `MetaScore` line conditionally appended at line 33. -/
def metaLine (m : List Char) : List Char := "\nMetaScore: ".data ++ m ++ "/100".data

/-- The condition of line 32: `pd.notna(metascore) and metascore != 'Unknown'`. -/
def metaPresent (row : Row) : Bool :=
  match row.metascore with
  | some m => decide (m ≠ "Unknown".data)
  | none => false

/-- The local variable `desc` of `make_description` (lines 21–30): the
f-string over the eight canonical fields, `year` and `duration` rendering as
`Unknown` on their `except` paths. -/
def makeDescCore (row : Row) : List Char :=
  "Title: ".data ++ row.title ++
  "\nYear: ".data ++ (match row.year with | some n => intStr n | none => "Unknown".data) ++
  "\nGenre: ".data ++ row.genre ++
  "\nRating: ".data ++ row.rating ++ "/10".data ++
  "\nDirector: ".data ++ row.director ++
  "\nCast: ".data ++ row.cast ++
  "\nDuration: ".data ++
    (match row.duration with | some n => intStr n | none => "Unknown".data) ++ " minutes".data ++
  "\nCertificate: ".data ++ row.certificates

/-- `make_description` from `services/ingest.py`. -/
def make_description (row : Row) : List Char :=
  let desc := makeDescCore row
  match row.metascore with
  | some m => if m ≠ "Unknown".data then desc ++ metaLine m else desc
  | none => desc

/-- Spec-side description: the claim's fixed-order concatenation of the eight
canonical fields (Title, Year, Genre, Rating, Director, Cast, Duration,
Certificate), with no metascore line.  Stated from the spec's words, to be
compared with `make_description`. -/
def coreDescription (row : Row) : List Char :=
  "Title: ".data ++ row.title ++
  "\nYear: ".data ++ (match row.year with | some n => intStr n | none => "Unknown".data) ++
  "\nGenre: ".data ++ row.genre ++
  "\nRating: ".data ++ row.rating ++ "/10".data ++
  "\nDirector: ".data ++ row.director ++
  "\nCast: ".data ++ row.cast ++
  "\nDuration: ".data ++
    (match row.duration with | some n => intStr n | none => "Unknown".data) ++ " minutes".data ++
  "\nCertificate: ".data ++ row.certificates

/-! ## `ingest_movies` (services/ingest.py, lines 37–106)

The on-disk state seen by ingestion: the pickle cache, the FAISS index
directory, and the raw CSV.  The two heavy transformations — CSV processing
(read, rename, impute, `make_description`, lines 50–76) and index building
(chunking plus embedding, `create_vector_db` in services/rag.py) — are taken
as parameters: ingestion's control flow never inspects their output when the
artifacts already exist.  `process` returns `none` on the `except` path of
lines 78–80 (e.g. a missing CSV).  The returned action list records which
recomputation steps ran. -/

structure FS where
  cache : Option (List Row)
  index : Option (List Doc)
  csv : List Char
deriving Inhabited

inductive IngestAction where
  | processCsv
  | writeCache
  | buildIndex
deriving DecidableEq

/-- `ingest_movies` from `services/ingest.py`. -/
def ingest_movies (process : List Char → Option (List Row))
    (create_vector_db : List Doc → List Doc) (fs : FS) : FS × List IngestAction :=
  -- Phase 1: load from cache when it exists, otherwise process the CSV and
  -- write the cache (an error there returns early).
  match fs.cache with
  | some df =>
    -- Phase 2: skip index creation when the index exists.
    match fs.index with
    | some _ => (fs, [])
    | none =>
      let documents := df.map fun row => Doc.mk (make_description row) row.title
      ({ fs with index := some (create_vector_db documents) }, [IngestAction.buildIndex])
  | none =>
    match process fs.csv with
    | none => (fs, [IngestAction.processCsv])
    | some df =>
      let fs1 : FS := { fs with cache := some df }
      match fs1.index with
      | some _ => (fs1, [IngestAction.processCsv, IngestAction.writeCache])
      | none =>
        let documents := df.map fun row => Doc.mk (make_description row) row.title
        ({ fs1 with index := some (create_vector_db documents) },
          [IngestAction.processCsv, IngestAction.writeCache, IngestAction.buildIndex])

/-! ## Helper lemmas -/

theorem splitOnChar_ne_nil (sep : Char) (s : List Char) : splitOnChar sep s ≠ [] := by
  induction s with
  | nil => simp [splitOnChar]
  | cons c t ih =>
    simp only [splitOnChar]
    split
    · simp
    · cases h : splitOnChar sep t with
      | nil => simp
      | cons hh tt => simp

/-- The first component of a Python `split(sep)` is the longest separator-free
prefix. -/
theorem splitOnChar_headD (sep : Char) (s : List Char) :
    (splitOnChar sep s).headD [] = s.takeWhile (fun c => c != sep) := by
  induction s with
  | nil => simp [splitOnChar]
  | cons c t ih =>
    by_cases hc : c = sep
    · subst hc
      simp [splitOnChar, List.takeWhile]
    · cases h : splitOnChar sep t with
      | nil => exact absurd h (splitOnChar_ne_nil sep t)
      | cons hh tt =>
        rw [h] at ih
        simp only [List.headD_cons] at ih
        have hb : (c != sep) = true := bne_iff_ne.mpr hc
        simp [splitOnChar, hc, h, List.takeWhile_cons, hb, ih]

/-- The candidate loop is first-occurrence title deduplication of the
filter-surviving candidates, truncated to `k`. -/
theorem keepLoop_eq_dedup (pass : Doc → Bool) (l : List Doc) :
    ∀ (k : Nat) (seen : List (List Char)),
      keepLoop pass k seen l = (dedupTitles seen (l.filter pass)).take k := by
  induction l with
  | nil => intro k seen; simp [keepLoop, dedupTitles]
  | cons d ds ih =>
    intro k seen
    by_cases hk : k = 0
    · subst hk; simp [keepLoop]
    · by_cases hseen : d.title ∈ seen
      · by_cases hp : pass d = true
        · simp [keepLoop, hk, hseen, hp, List.filter_cons, dedupTitles, ih]
        · simp [keepLoop, hk, hseen, hp, List.filter_cons, ih]
      · by_cases hp : pass d = true
        · obtain ⟨j, rfl⟩ : ∃ j, k = j + 1 :=
            ⟨k - 1, (Nat.succ_pred_eq_of_pos (Nat.pos_of_ne_zero hk)).symm⟩
          simp [keepLoop, hseen, hp, List.filter_cons, dedupTitles, ih]
        · simp [keepLoop, hk, hseen, hp, List.filter_cons, ih]

theorem dedupTitles_sublist (seen : List (List Char)) (l : List Doc) :
    List.Sublist (dedupTitles seen l) l := by
  induction l generalizing seen with
  | nil => simp [dedupTitles]
  | cons d ds ih =>
    simp only [dedupTitles]
    split
    · exact (ih seen).cons d
    · exact (ih (d.title :: seen)).cons₂ d

theorem title_not_seen_of_mem_dedupTitles (seen : List (List Char)) (l : List Doc) :
    ∀ d ∈ dedupTitles seen l, d.title ∉ seen := by
  induction l generalizing seen with
  | nil => simp [dedupTitles]
  | cons d ds ih =>
    simp only [dedupTitles]
    split
    · exact ih seen
    · intro e he
      rcases List.mem_cons.mp he with rfl | hmem
      · assumption
      · intro hc
        exact ih (d.title :: seen) e hmem (List.mem_cons_of_mem _ hc)

theorem dedupTitles_nodup (seen : List (List Char)) (l : List Doc) :
    ((dedupTitles seen l).map Doc.title).Nodup := by
  induction l generalizing seen with
  | nil => simp [dedupTitles]
  | cons d ds ih =>
    simp only [dedupTitles]
    split
    · exact ih seen
    · simp only [List.map_cons, List.nodup_cons]
      refine ⟨fun hmem => ?_, ih (d.title :: seen)⟩
      rcases List.mem_map.mp hmem with ⟨e, he, hte⟩
      exact title_not_seen_of_mem_dedupTitles _ _ e he (hte ▸ List.mem_cons_self _ _)

/-- Everything the candidate loop keeps comes from the candidate list and
passes the filter. -/
theorem mem_keepLoop (pass : Doc → Bool) (k : Nat) (l : List Doc) :
    ∀ d ∈ keepLoop pass k [] l, d ∈ l ∧ pass d = true := by
  intro d hd
  rw [keepLoop_eq_dedup] at hd
  have h1 : d ∈ dedupTitles [] (l.filter pass) := (List.take_sublist _ _).subset hd
  have h2 : d ∈ l.filter pass := (dedupTitles_sublist _ _).subset h1
  exact ⟨List.mem_of_mem_filter h2, List.of_mem_filter h2⟩

/-- The candidate loop returns at most `k` documents, with pairwise-distinct
titles. -/
theorem keepLoop_length_nodup (pass : Doc → Bool) (k : Nat) (l : List Doc) :
    (keepLoop pass k [] l).length ≤ k ∧ ((keepLoop pass k [] l).map Doc.title).Nodup := by
  rw [keepLoop_eq_dedup]
  refine ⟨List.length_take_le _ _, ?_⟩
  exact ((List.take_sublist _ _).map Doc.title).nodup (dedupTitles_nodup _ _)

theorem isDigitCh_toNat (c : Char) (h : isDigitCh c = true) :
    48 ≤ c.toNat ∧ c.toNat ≤ 57 := by
  simp only [isDigitCh, Bool.and_eq_true, decide_eq_true_eq] at h
  obtain ⟨h1, h2⟩ := h
  rw [Char.le_def] at h1 h2
  exact ⟨h1, h2⟩

/-- A successful match of `(19\d\x7b2\x7d|20\d\x7b2\x7d)\b` yields a year in
1900–2099. -/
theorem tryYearAt_bound : ∀ (l : List Char) (y : Nat),
    tryYearAt l = some y → 1900 ≤ y ∧ y ≤ 2099 := by
  intro l y h
  match l with
  | [] => simp [tryYearAt] at h
  | [_] => simp [tryYearAt] at h
  | [_, _] => simp [tryYearAt] at h
  | [_, _, _] => simp [tryYearAt] at h
  | a :: b :: c :: d :: rest =>
    simp only [tryYearAt] at h
    split at h
    case isTrue hcond =>
      injection h with h
      subst h
      simp only [Bool.and_eq_true, Bool.or_eq_true, decide_eq_true_eq] at hcond
      obtain ⟨⟨⟨hab, hc⟩, hd⟩, -⟩ := hcond
      obtain ⟨hc1, hc2⟩ := isDigitCh_toNat c hc
      obtain ⟨hd1, hd2⟩ := isDigitCh_toNat d hd
      simp only [digitsToNat, List.foldl]
      have e1 : ('1' : Char).toNat = 49 := rfl
      have e9 : ('9' : Char).toNat = 57 := rfl
      have e2 : ('2' : Char).toNat = 50 := rfl
      have e0 : ('0' : Char).toNat = 48 := rfl
      rcases hab with ⟨ha, hb⟩ | ⟨ha, hb⟩ <;> subst ha <;> subst hb
      · rw [e1, e9]; omega
      · rw [e2, e0]; omega
    case isFalse => exact absurd h (by simp)

/-- A successful `re.search` for the explicit-year pattern yields a year in
1900–2099. -/
theorem yearSearchAux_bound : ∀ (l : List Char) (b : Bool) (y : Nat),
    yearSearchAux b l = some y → 1900 ≤ y ∧ y ≤ 2099 := by
  intro l
  induction l with
  | nil => intro b y h; simp [yearSearchAux] at h
  | cons c t ih =>
    intro b y h
    simp only [yearSearchAux] at h
    by_cases hb : (!b) = true
    · rw [if_pos hb] at h
      cases htry : tryYearAt (c :: t) with
      | some z => rw [htry] at h; injection h with h; subst h; exact tryYearAt_bound _ _ htry
      | none => rw [htry] at h; exact ih _ _ h
    · rw [if_neg hb] at h
      exact ih _ _ h

/-! ## Claim theorems -/

/-- C4: `parse_year_range` returns (1990, 1999) on "90s movies" (two-digit
decade tokens are prefixed with "19"), (1920, 1929) on text containing
"1920s", (2015, 2015) on "from 2015" (an explicit four-digit year — always in
1900–2099, the range the pattern can produce — maps to (year, year)), no
match on "timeless classics", and no match on every input containing neither
a decade token nor a four-digit year (i.e. on which neither pattern's search
succeeds). -/
theorem parse_year_range_claims :
    parse_year_range "90s movies".data = some (1990, 1999) ∧
    parse_year_range "best 1920s films".data = some (1920, 1929) ∧
    parse_year_range "from 2015".data = some (2015, 2015) ∧
    parse_year_range "timeless classics".data = none ∧
    (∀ s d, decadeSearchAux false s = some d → d.length = 2 →
      parse_year_range s = some (1900 + digitsToNat d, (1900 + digitsToNat d) + 9)) ∧
    (∀ s y, decadeSearchAux false s = none → yearSearchAux false s = some y →
      parse_year_range s = some (y, y) ∧ 1900 ≤ y ∧ y ≤ 2099) ∧
    (∀ s, decadeSearchAux false s = none → yearSearchAux false s = none →
      parse_year_range s = none) := by
  refine ⟨by decide, by decide, by decide, by decide, ?_, ?_, ?_⟩
  · intro s d hd hlen
    simp [parse_year_range, hd, hlen]
  · intro s y hd hy
    exact ⟨by simp [parse_year_range, hd, hy], (yearSearchAux_bound s false y hy).1,
      (yearSearchAux_bound s false y hy).2⟩
  · intro s hd hy
    simp [parse_year_range, hd, hy]

/-- Witness for C4 at concrete inputs. -/
theorem parse_year_range_claims_witness :
    parse_year_range "hello world".data = none :=
  parse_year_range_claims.2.2.2.2.2.2 "hello world".data (by decide) (by decide)

/-- C5: `parse_genre` returns "sci-fi" whenever the input contains "scifi";
otherwise the first genre of the fixed vocabulary matching as an exact
(space-delimited) whole word; otherwise the first fuzzy match of the
token-by-token scan (tokens in order, vocabulary order within each token,
ratio strictly above 80 on the 0–100 scale, first match wins with no
best-of-all ranking); and no match when nothing clears the threshold.
Concretely "I like scifi films" → "sci-fi", "horor movie" → "horror",
"plain drama" → "drama". -/
theorem parse_genre_claims :
    (∀ q, isSubstr "scifi".data q = true → parse_genre q = some "sci-fi".data) ∧
    (∀ q g, isSubstr "scifi".data q = false → exactGenreMatch q = some g →
      parse_genre q = some g) ∧
    (∀ q g, exactGenreMatch q = some g →
      g ∈ genres ∧ isSubstr (' ' :: g ++ [' ']) (' ' :: q ++ [' ']) = true) ∧
    (∀ q g, fuzzyGenreMatch q = some g →
      g ∈ genres ∧ ∃ w, w ∈ splitWs q ∧ fuzzRatioGt80 g w = true) ∧
    (∀ q, isSubstr "scifi".data q = false → exactGenreMatch q = none →
      parse_genre q = fuzzyGenreMatch q) ∧
    (∀ q, isSubstr "scifi".data q = false → exactGenreMatch q = none →
      fuzzyGenreMatch q = none → parse_genre q = none) ∧
    parse_genre "I like scifi films".data = some "sci-fi".data ∧
    parse_genre "horor movie".data = some "horror".data ∧
    parse_genre "plain drama".data = some "drama".data := by
  refine ⟨?_, ?_, ?_, ?_, ?_, ?_, by decide, by decide, by decide⟩
  · intro q h
    simp [parse_genre, h]
  · intro q g h1 h2
    simp [parse_genre, h1, h2]
  · intro q g h
    unfold exactGenreMatch at h
    refine ⟨List.mem_of_find?_eq_some h, ?_⟩
    simpa using List.find?_some h
  · intro q g h
    unfold fuzzyGenreMatch at h
    obtain ⟨w, hw, hfind⟩ := List.exists_of_findSome?_eq_some h
    refine ⟨List.mem_of_find?_eq_some hfind, w, hw, ?_⟩
    simpa using List.find?_some hfind
  · intro q h1 h2
    simp [parse_genre, h1, h2]
  · intro q h1 h2 h3
    simp [parse_genre, h1, h2, h3]

/-- Witness for C5 at concrete inputs. -/
theorem parse_genre_claims_witness :
    parse_genre "pure scifi".data = some "sci-fi".data :=
  parse_genre_claims.1 "pure scifi".data (by decide)

/-- An index whose search returns nothing (used for concrete instantiations). -/
def emptyIndex : Index := ⟨fun _ _ => []⟩

/-- C1: for every query, `search_movies` returns at most 5 entries with
pairwise-distinct titles, deduplicated by title with the first occurrence
winning in candidate order (the result is the 5-truncation of the
first-occurrence dedup of the filter-surviving candidates), every returned
entry comes from the candidate list and satisfies the parsed year-range
filter (matched against the `Year: NNNN` marker in the chunk text) and the
parsed genre filter (case-insensitive substring of the chunk text); if zero
candidates survive filtering it returns the designated "no movies found"
message, and otherwise it formats exactly the surviving entries. -/
theorem search_movies_claims (query : List Char) (idx : Index)
    (yr : Option (Nat × Nat)) (gf : Option (List Char)) (filtered : List Doc)
    (hyr : yr = parse_year_range (toLowerStr query))
    (hgf : gf = parse_genre (toLowerStr query))
    (hf : filtered = keepLoop (docPass yr gf) 5 [] (idx.search query 30)) :
    filtered.length ≤ 5 ∧
    (filtered.map Doc.title).Nodup ∧
    filtered = (dedupTitles [] ((idx.search query 30).filter (docPass yr gf))).take 5 ∧
    (∀ d, d ∈ filtered → d ∈ idx.search query 30 ∧
      yearPass yr d.content = true ∧ genrePass gf d.content = true) ∧
    (filtered = [] → search_movies query (some idx) = noMoviesMsg) ∧
    (filtered ≠ [] → search_movies query (some idx) =
      "Here is what I found:\n\n".data ++ numberLines 1 filtered) := by
  subst hyr
  subst hgf
  refine ⟨?_, ?_, ?_, ?_, ?_, ?_⟩
  · rw [hf]; exact (keepLoop_length_nodup _ _ _).1
  · rw [hf]; exact (keepLoop_length_nodup _ _ _).2
  · rw [hf]; exact keepLoop_eq_dedup _ _ _ _
  · intro d hd
    rw [hf] at hd
    obtain ⟨hmem, hpass⟩ := mem_keepLoop _ _ _ d hd
    unfold docPass at hpass
    rw [Bool.and_eq_true] at hpass
    exact ⟨hmem, hpass.1, hpass.2⟩
  · intro he
    simp only [search_movies]
    rw [← hf, he]
    simp
  · intro hne
    simp only [search_movies]
    rw [← hf]
    cases hfe : filtered with
    | nil => exact absurd hfe hne
    | cons d ds => simp

/-- Witness for C1: with an index returning no candidates, the empty-result
branch produces the "no movies found" message. -/
theorem search_movies_claims_witness :
    search_movies "anything".data (some emptyIndex) = noMoviesMsg :=
  (search_movies_claims "anything".data emptyIndex _ _ _ rfl rfl rfl).2.2.2.2.1 rfl

/-- A chunk carrying no `Year: NNNN` marker, and an index returning it. -/
def markerlessDoc : Doc := ⟨"Title: Foo\nGenre: drama".data, "Foo".data⟩

def markerlessIndex : Index := ⟨fun _ _ => [markerlessDoc]⟩

/-- C10: in `search_movies`' year filter, a candidate chunk with no
`Year: NNNN` marker is never excluded when a year range was parsed — the
filter rejects exactly the chunks bearing a marker whose year lies outside
the parsed range — so marker-less chunks pass the year filter
unconditionally and can appear in the results (third conjunct: a concrete
run of `search_movies` on a year query returns a marker-less chunk). -/
theorem search_movies_markerless_claims :
    (∀ lo hi content, markerSearch content = none →
      yearPass (some (lo, hi)) content = true) ∧
    (∀ lo hi content, yearPass (some (lo, hi)) content = false →
      ∃ y, markerSearch content = some y ∧ ¬(lo ≤ y ∧ y ≤ hi)) ∧
    search_movies "90s movies".data (some markerlessIndex) =
      "Here is what I found:\n\n1. Foo | drama\n".data := by
  refine ⟨?_, ?_, by decide⟩
  · intro lo hi content h
    simp [yearPass, h]
  · intro lo hi content h
    unfold yearPass at h
    cases hm : markerSearch content with
    | none => rw [hm] at h; simp at h
    | some y =>
      rw [hm] at h
      refine ⟨y, rfl, ?_⟩
      rintro ⟨h1, h2⟩
      simp [h1, h2] at h

/-- Witness for C10: a concrete marker-less chunk passes a concrete parsed
year filter. -/
theorem search_movies_markerless_claims_witness :
    yearPass (some (1990, 1999)) "Title: Foo\nGenre: drama".data = true :=
  search_movies_markerless_claims.1 1990 1999 _ (by decide)

/-- C8: `recommend_similar_movies` resolves the reference by a k=1 lookup on
the literal string `Title: {movie_title}` and returns the not-found message
when that lookup is empty; otherwise it re-queries the index with the
reference's own content (k=10) and returns at most 5 recommendations whose
titles are pairwise distinct and never equal to the reference's own title. -/
theorem recommend_similar_movies_claims (movie_title : List Char) (idx : Index) :
    (idx.search ("Title: ".data ++ movie_title) 1 = [] →
      recommend_similar_movies movie_title (some idx) =
        "I couldn't find '".data ++ movie_title ++ "'.".data) ∧
    (∀ ref rest recs, idx.search ("Title: ".data ++ movie_title) 1 = ref :: rest →
      recs = keepLoop (fun d => decide (d.title ≠ ref.title)) 5 []
        (idx.search ref.content 10) →
      recs.length ≤ 5 ∧ (recs.map Doc.title).Nodup ∧ ref.title ∉ recs.map Doc.title ∧
      recommend_similar_movies movie_title (some idx) =
        "Movies similar to '".data ++ ref.title ++ "':\n\n".data ++
          (recs.map fun d => "- ".data ++ docInfo 3 d ++ "\n".data).flatten) := by
  constructor
  · intro h
    simp only [recommend_similar_movies]
    rw [h]
  · intro ref rest recs h hr
    refine ⟨?_, ?_, ?_, ?_⟩
    · rw [hr]; exact (keepLoop_length_nodup _ _ _).1
    · rw [hr]; exact (keepLoop_length_nodup _ _ _).2
    · intro hmem
      rcases List.mem_map.mp hmem with ⟨d, hd, ht⟩
      rw [hr] at hd
      have hne := (mem_keepLoop _ _ _ d hd).2
      rw [decide_eq_true_eq] at hne
      exact hne ht
    · subst hr
      simp only [recommend_similar_movies]
      rw [h]

/-- Witness for C8: an index with no match for the reference lookup yields
the not-found message. -/
theorem recommend_similar_movies_claims_witness :
    recommend_similar_movies "Inception".data (some emptyIndex) =
      "I couldn't find '".data ++ "Inception".data ++ "'.".data :=
  (recommend_similar_movies_claims "Inception".data emptyIndex).1 rfl

/-- A concrete cached-table row (rating 8, year 2010, genre sci-fi). -/
def inceptionMovie : Movie :=
  ⟨"Inception".data, 2010, "sci-fi".data, 8,
   "Christopher Nolan".data, "LeonardoDiCaprio".data⟩

/-- C2 (the code at the failing input): `get_movie_statistics` in "average"
mode on a query whose parsed genre filter empties the cached table does not
raise, but it renders pandas' NaN mean as the literal text `nan` — not an
explicit "no data" report. -/
theorem get_movie_statistics_average_empty_nan :
    get_movie_statistics "average horror rating".data (some [inceptionMovie]) =
      "Average rating: nan/10 (based on 0 movies)".data := by decide

/-- Two module states sharing the cached table and the index handle but
caught at different points of the process-wide RNG stream. -/
def quizStateA : AgentState :=
  ⟨some (List.replicate 5 inceptionMovie), some emptyIndex, true, 0⟩

def quizStateB : AgentState :=
  ⟨some (List.replicate 5 inceptionMovie), some emptyIndex, false, 0⟩

/-- C3 counterexample: `generate_movie_quiz` is not a pure function of its
free-text input plus the cached table and index — two calls against the same
table and index but different RNG states return different answer strings. -/
theorem tools_not_pure_counterexample :
    quizStateA.table = quizStateB.table ∧ quizStateA.index = quizStateB.index ∧
    quizTool "make a quiz".data quizStateA ≠ quizTool "make a quiz".data quizStateB :=
  ⟨rfl, rfl, by decide⟩

/-- C3 (amended): `search_movies`, `recommend_similar_movies` and
`get_movie_statistics` are pure functions of their free-text input plus the
cached table and the index — any two module states agreeing on table and
index give identical answers — while `generate_movie_quiz` is a pure
function of the table and the RNG state (agreeing RNG states give identical
answers); no tool mutates the table or the index. -/
theorem tools_deterministic (q t : List Char) (s1 s2 : AgentState)
    (htab : s1.table = s2.table) (hidx : s1.index = s2.index) :
    searchTool q s1 = searchTool q s2 ∧
    recommendTool t s1 = recommendTool t s2 ∧
    statsTool q s1 = statsTool q s2 ∧
    (s1.rngPick = s2.rngPick → s1.rngIdx = s2.rngIdx →
      quizTool q s1 = quizTool q s2) := by
  unfold searchTool recommendTool statsTool quizTool
  rw [htab, hidx]
  exact ⟨rfl, rfl, rfl, fun h1 h2 => by rw [h1, h2]⟩

/-- Witness for C3 (amended): the two RNG-divergent states of the
counterexample still agree on every deterministic tool. -/
theorem tools_deterministic_witness :
    searchTool "any query".data quizStateA = searchTool "any query".data quizStateB :=
  (tools_deterministic "any query".data "any title".data quizStateA quizStateB rfl rfl).1

/-- C6: `generate_movie_quiz` samples only from records with rating ≥ 7.0
and year ≥ 2000 and returns the "not enough data" message exactly when that
pool has fewer than 5 records; the sampled record is a pool member, and the
answer embedded in the `||INTERNAL_ANSWER_KEY: ...||` marker is the record's
director field in the director variant and the first comma-separated name of
the cleaned cast field in the actor variant. -/
theorem generate_movie_quiz_claims (rows : List Movie) (pick : Bool) (idx : Nat) :
    ((quizPool rows).length < 5 →
      generate_movie_quiz (some rows) pick idx = "Not enough data for a quiz.".data) ∧
    (5 ≤ (quizPool rows).length →
      ∀ m, m = (quizPool rows).getD (idx % (quizPool rows).length) default →
        m ∈ rows ∧ (7 : ℚ) ≤ m.rating ∧ (2000 : ℚ) ≤ m.year ∧
        generate_movie_quiz (some rows) pick idx =
          (if pick then dirResponse m else actResponse m) ∧
        dirResponse m = dirQuestion m ++ answerKeyMarker m.director ∧
        actResponse m = actQuestion m ++
          answerKeyMarker ((clean_mashed_names m.cast).takeWhile fun c => c != ',')) := by
  constructor
  · intro h
    simp only [generate_movie_quiz]
    rw [if_pos h]
  · intro h5 m hm
    have hlt : idx % (quizPool rows).length < (quizPool rows).length :=
      Nat.mod_lt _ (by omega)
    have hmem_pool : m ∈ quizPool rows := by
      rw [hm, List.getD_eq_getElem _ _ hlt]
      exact List.getElem_mem hlt
    unfold quizPool at hmem_pool
    have hmem := List.mem_filter.mp hmem_pool
    rw [Bool.and_eq_true, decide_eq_true_eq, decide_eq_true_eq] at hmem
    refine ⟨hmem.1, hmem.2.1, hmem.2.2, ?_, rfl, ?_⟩
    · simp only [generate_movie_quiz]
      rw [if_neg (Nat.not_lt.mpr h5), ← hm]
    · unfold actResponse
      rw [← splitOnChar_headD]

/-- Witness for C6: a concrete 5-record pool produces the director variant
with the sampled record's director as the embedded answer. -/
theorem generate_movie_quiz_claims_witness :
    generate_movie_quiz (some (List.replicate 5 inceptionMovie)) true 0 =
      dirResponse inceptionMovie :=
  ((generate_movie_quiz_claims (List.replicate 5 inceptionMovie) true 0).2
    (by decide) inceptionMovie (by decide)).2.2.2.1

/-- C7: when the pickle cache and the vector index both already exist,
`ingest_movies` performs no recomputation (its action trace is empty) and
leaves the on-disk state unchanged; in particular running it twice from that
state equals running it once. -/
theorem ingest_movies_idempotent (process : List Char → Option (List Row))
    (create_vector_db : List Doc → List Doc) (fs : FS) (c : List Row) (i : List Doc)
    (hc : fs.cache = some c) (hi : fs.index = some i) :
    ingest_movies process create_vector_db fs = (fs, []) ∧
    (ingest_movies process create_vector_db
      (ingest_movies process create_vector_db fs).1).1 =
      (ingest_movies process create_vector_db fs).1 := by
  have h1 : ingest_movies process create_vector_db fs = (fs, []) := by
    simp only [ingest_movies]
    rw [hc, hi]
  refine ⟨h1, ?_⟩
  rw [h1]
  exact congrArg Prod.fst h1

/-- Witness for C7 at a concrete filesystem state with both artifacts
present. -/
theorem ingest_movies_idempotent_witness :
    ingest_movies (fun _ => none) (fun docs => docs) (FS.mk (some []) (some []) []) =
      (FS.mk (some []) (some []) [], []) :=
  (ingest_movies_idempotent (fun _ => none) (fun docs => docs)
    (FS.mk (some []) (some []) []) [] [] rfl rfl).1

/-- C9: for every record, the generated description is the fixed-order
concatenation of the canonical fields (Title, Year, Genre, Rating, Director,
Cast, Duration, Certificate), extended by the MetaScore line exactly when the
record's metascore is present (non-null) and is not the literal string
"Unknown": the description differs from the eight-field core iff that
condition holds, and then by exactly the appended MetaScore line. -/
theorem make_description_claims (row : Row) :
    (∀ m, row.metascore = some m → m ≠ "Unknown".data →
      make_description row = coreDescription row ++ metaLine m) ∧
    (metaPresent row = false → make_description row = coreDescription row) ∧
    (make_description row ≠ coreDescription row ↔ metaPresent row = true) := by
  cases hms : row.metascore with
  | none =>
    have hcore : make_description row = coreDescription row := by
      simp only [make_description, hms]
      rfl
    refine ⟨fun m hm => absurd hm (by simp), fun _ => hcore, ?_⟩
    constructor
    · intro hne
      exact absurd hcore hne
    · intro hp
      unfold metaPresent at hp
      rw [hms] at hp
      simp at hp
  | some m0 =>
    by_cases hu : m0 = "Unknown".data
    · have hcore : make_description row = coreDescription row := by
        simp only [make_description, hms]
        rw [if_neg (not_not.mpr hu)]
        rfl
      refine ⟨?_, fun _ => hcore, ?_⟩
      · intro m hm hne
        cases hm
        exact absurd hu hne
      · constructor
        · intro hne
          exact absurd hcore hne
        · intro hp
          unfold metaPresent at hp
          rw [hms] at hp
          simp [hu] at hp
    · have heq : make_description row = coreDescription row ++ metaLine m0 := by
        simp only [make_description, hms]
        rw [if_pos hu]
        rfl
      have hml : 0 < (metaLine m0).length := by simp [metaLine]
      refine ⟨?_, ?_, ?_⟩
      · intro m hm _
        cases hm
        exact heq
      · intro hp
        unfold metaPresent at hp
        rw [hms] at hp
        simp [hu] at hp
      · constructor
        · intro _
          unfold metaPresent
          rw [hms]
          simp [hu]
        · intro _
          rw [heq]
          intro hcontra
          have hlen := congrArg List.length hcontra
          rw [List.length_append] at hlen
          omega

/-- Witness for C9 at a concrete record with a present, non-"Unknown"
metascore. -/
theorem make_description_claims_witness :
    make_description
        (Row.mk "T".data (some 1999) "drama".data "8.1".data "D".data "C".data
          (some 120) "PG".data (some "70".data)) =
      coreDescription
        (Row.mk "T".data (some 1999) "drama".data "8.1".data "D".data "C".data
          (some 120) "PG".data (some "70".data)) ++ metaLine "70".data :=
  (make_description_claims _).1 "70".data rfl (by decide)
